import Mathlib

/-!
# Kernel shared memory and vector slicing

A shallow embedding of

* `Kernel::SharedMemory` (`core/hle/kernel/shared_memory.cpp`): the factory `Create` and the
  member functions `Map` and `Unmap`;
* `Common::FS::SliceVector` (`common/file_util.h`).

Machine integers (`std::size_t`, `u64`) are natural numbers, with an explicit `% 2 ^ 64`
where the source can wrap.  The state the member functions act on is passed explicitly:
the shared memory object itself, the page table of every process, and the diagnostics
that have been emitted.
-/

namespace Common.FS

/-- The function `SliceVector` of `common/file_util.h`.  A `std::vector<T>` is a list.
The source returns the empty vector when `first >= last`; otherwise it sets
`last = min(last, vector.size())` and builds the result from the iterator range
`[vector.begin() + first, vector.begin() + first + last)`.  That range holds `last`
elements starting at index `first`.  It lies inside the vector only when
`first + last <= vector.size()`; forming it otherwise is undefined behaviour, for which the
embedding returns `none`. -/
def SliceVector {T : Type} (vector : List T) (first last : Nat) : Option (List T) :=
  if first ≥ last then
    some []
  else
    let last := min last vector.length
    if first + last ≤ vector.length then
      some ((vector.drop first).take last)
    else
      none

/-- The slice that the comment above `SliceVector` documents ("a new vector containing
indices [first, last) from the original"), with `last` capped at the size: the elements
at the indices `i` with `first ≤ i < min(last, vector.size())`, in order. -/
def SliceVector_documented {T : Type} (vector : List T) (first last : Nat) : List T :=
  if first ≥ last then [] else (vector.take (min last vector.length)).drop first

end Common.FS

namespace Kernel

namespace Memory

/-- Modelled from the spec: the constant `Memory::PageSize` (its header is not part of the
sources at hand); a page is `0x1000` bytes, so that a region of `0x2000` bytes is 2 pages. -/
def PageSize : Nat := 0x1000

/-- Modelled from the spec: the enumeration `Memory::MemoryPermission` (declared in a header
that is not part of the sources at hand), with the masks the data model lists. -/
inductive MemoryPermission where
  | None
  | Read
  | Write
  | Execute
  | ReadWrite
  | ReadExecute
  deriving DecidableEq, Repr

/-- Modelled from the spec: the enumeration `Memory::MemoryState` (declared in a header that
is not part of the sources at hand), with the tags the data model lists. -/
inductive MemoryState where
  | Free
  | Shared
  | Private
  | Locked
  deriving DecidableEq, Repr

/-- One run of a page list: a physical base address and a number of pages. -/
structure Node where
  addr : Nat
  num_pages : Nat
  deriving DecidableEq, Repr

/-- Modelled from the spec: the class `Memory::PageLinkedList` (declared in a header that is
not part of the sources at hand): an ordered sequence of (physical base, page count) runs. -/
structure PageLinkedList where
  nodes : List Node
  deriving DecidableEq, Repr

/-- Modelled from the spec: `PageLinkedList::GetNumPages`, the total page count of the runs,
accumulated in a 64-bit counter. -/
def PageLinkedList.GetNumPages (l : PageLinkedList) : Nat :=
  l.nodes.foldl (fun num_pages node => (num_pages + node.num_pages) % 2 ^ 64) 0

end Memory

open Memory

/-- Modelled from the spec: the values of `ResultCode` (its header and `errors.h` are not part
of the sources at hand), following the error taxonomy of the spec. -/
inductive ResultCode where
  | Success
  | SizeMismatch
  | PermissionMismatch
  | OverlappingMapping
  | UnmappedRegion
  | InvalidSize
  | InvalidAddress
  deriving DecidableEq, Repr

/-- Modelled from the spec: the constant `RESULT_SUCCESS` (its header is not part of the
sources at hand), the result of a call that succeeded. -/
def RESULT_SUCCESS : ResultCode := ResultCode.Success

/-- Modelled from the spec: the constant `ERR_INVALID_SIZE` of `core/hle/kernel/errors.h`
(not part of the sources at hand), the specific "invalid size" error. -/
def ERR_INVALID_SIZE : ResultCode := ResultCode.InvalidSize

/-- A diagnostic written by one of the logging facilities the source uses: `LOG_CRITICAL`
(through a failed assertion) or `LOG_ERROR`, with the format arguments of the message. -/
inductive LogEntry where
  | critical (msg : String)
  | error (msg : String) (args : List Nat)
  deriving DecidableEq, Repr

/-- The data members of `Kernel::SharedMemory`, as `Create` assigns them.  `kernel` and
`device_memory` are the references taken by the constructor.  `owner_process` is a
`Process*`: `none` is the null pointer, `some p` points to the process `p`. -/
structure SharedMemory where
  kernel : Nat
  device_memory : Nat
  owner_process : Option Nat
  page_list : PageLinkedList
  owner_permission : MemoryPermission
  user_permission : MemoryPermission
  physical_address : Nat
  size : Nat
  name : String
  deriving DecidableEq, Repr

/-- The two member functions of `Memory::PageTable` that `SharedMemory` calls.  Their code is
not part of the sources at hand, so the embedding takes them as parameters: each receives
the page table (of type `σ`) and returns a result code and the page table it leaves. -/
structure PageTableOps (σ : Type) where
  MapPages : σ → Nat → PageLinkedList → MemoryState → MemoryPermission → ResultCode × σ
  UnmapMemory : σ → Nat → Nat → ResultCode × σ

/-- The state `Map` and `Unmap` run in: the shared memory object (`this`),
`Process::PageTable()` of every process (a process is identified by a number, as by its
address), and the diagnostics emitted so far. -/
structure System (σ : Type) where
  shared_memory : SharedMemory
  page_table : Nat → σ
  log : List LogEntry

/-- How a call ends: it returns a value in a state, or the host program was terminated
inside a failed assertion, in the state reached then. -/
inductive Run (σ : Type) (α : Type) where
  | ret (a : α) (s : System σ)
  | crashed (s : System σ)

/-- The value a call returned, `none` when the host program was terminated. -/
def Run.result {σ α : Type} : Run σ α → Option α
  | Run.ret a _ => some a
  | Run.crashed _ => none

/-- The state in which a call ended. -/
def Run.state {σ α : Type} : Run σ α → System σ
  | Run.ret _ s => s
  | Run.crashed s => s

/-- The assertion `UNIMPLEMENTED_MSG(msg)` of `common/assert.h`, which is not part of the
sources at hand.  It writes `msg` as a critical diagnostic.  Whether it then terminates the
host program or returns control is decided by that header, so it is the parameter `fatal`. -/
def UNIMPLEMENTED_MSG {σ : Type} (fatal : Bool) (msg : String) (s : System σ) : Run σ Unit :=
  let s1 : System σ := { s with log := s.log ++ [LogEntry.critical msg] }
  if fatal then Run.crashed s1 else Run.ret () s1

/-- The factory `SharedMemory::Create`: a fresh object whose fields are the arguments. -/
def SharedMemory.Create (kernel device_memory : Nat) (owner_process : Option Nat)
    (page_list : PageLinkedList) (owner_permission user_permission : MemoryPermission)
    (physical_address size : Nat) (name : String) : SharedMemory :=
  { kernel := kernel
    device_memory := device_memory
    owner_process := owner_process
    page_list := page_list
    owner_permission := owner_permission
    user_permission := user_permission
    physical_address := physical_address
    size := size
    name := name }

/-- The local `page_count` of `SharedMemory::Map`:
`(size + Memory::PageSize - 1) / Memory::PageSize` in 64-bit unsigned arithmetic. -/
def SharedMemory.Map.page_count (size : Nat) : Nat :=
  (size + PageSize - 1) % 2 ^ 64 / PageSize

/-- The local `expected` of `SharedMemory::Map`:
`&target_process == owner_process ? owner_permission : user_permission`. -/
def SharedMemory.Map.expected (this : SharedMemory) (target_process : Nat) : MemoryPermission :=
  if some target_process = this.owner_process then this.owner_permission
  else this.user_permission

/-- The member function `SharedMemory::Map`.  Neither `if` of the source has a `return`:
after each assertion that returns control the function goes on, and its only `return`
is the result of `MapPages` on the page table of `target_process`. -/
def SharedMemory.Map {σ : Type} (ops : PageTableOps σ) (fatal : Bool) (s : System σ)
    (target_process address size : Nat) (permissions : MemoryPermission) : Run σ ResultCode :=
  let page_count := SharedMemory.Map.page_count size
  let checked : Run σ Unit :=
    if s.shared_memory.page_list.GetNumPages ≠ page_count then
      UNIMPLEMENTED_MSG fatal "Page count does not match" s
    else
      Run.ret () s
  match checked with
  | Run.crashed s1 => Run.crashed s1
  | Run.ret _ s1 =>
    let expected := SharedMemory.Map.expected s1.shared_memory target_process
    let checked2 : Run σ Unit :=
      if permissions ≠ expected then
        UNIMPLEMENTED_MSG fatal "Permission does not match" s1
      else
        Run.ret () s1
    match checked2 with
    | Run.crashed s2 => Run.crashed s2
    | Run.ret _ s2 =>
      let r := ops.MapPages (s2.page_table target_process) address
        s2.shared_memory.page_list MemoryState.Shared permissions
      Run.ret r.1 { s2 with page_table := Function.update s2.page_table target_process r.2 }

/-- The member function `SharedMemory::Unmap`. -/
def SharedMemory.Unmap {σ : Type} (ops : PageTableOps σ) (s : System σ)
    (target_process address unmap_size : Nat) : ResultCode × System σ :=
  if unmap_size ≠ s.shared_memory.size then
    (ERR_INVALID_SIZE,
      { s with log := s.log ++ [LogEntry.error
          ("Invalid size passed to Unmap. Size must be equal to the size of the " ++
            "memory managed. Shared memory size=0x\x7b:016X\x7d, Unmap size=0x\x7b:016X\x7d")
          [s.shared_memory.size, unmap_size]] })
  else
    let r := ops.UnmapMemory (s.page_table target_process) address s.shared_memory.size
    (r.1, { s with page_table := Function.update s.page_table target_process r.2 })

/-! ### A page table to run the functions on -/

/-- One mapped range of a page table: its first virtual address, the physical runs behind
it in order, its memory state and its permission. -/
structure Mapping where
  address : Nat
  page_list : PageLinkedList
  state : MemoryState
  permission : MemoryPermission
  deriving DecidableEq, Repr

/-- Whether the range of `m` and the `num_pages` pages from `address` have a byte in common. -/
def Mapping.overlaps (m : Mapping) (address num_pages : Nat) : Bool :=
  decide (address < m.address + m.page_list.GetNumPages * PageSize) &&
    decide (m.address < address + num_pages * PageSize)

/-- Whether `m` is the range mapped at `address` over `size` bytes. -/
def Mapping.spans (m : Mapping) (address size : Nat) : Bool :=
  decide (m.address = address) && decide (m.page_list.GetNumPages * PageSize = size)

/-- A page table as a collection of mapped ranges, the most recent first. -/
abbrev PageTable : Type := List Mapping

/-- Modelled from the spec: `PageTable::MapPages`, whose code is not part of the sources at
hand.  A misaligned address is rejected, a range that overlaps an existing mapping is
rejected, and otherwise the runs of the page list are recorded in order from `address` with
the state and the permission. -/
def PageTable.MapPages (pt : PageTable) (address : Nat) (page_list : PageLinkedList)
    (state : MemoryState) (permission : MemoryPermission) : ResultCode × PageTable :=
  if address % PageSize ≠ 0 then
    (ResultCode.InvalidAddress, pt)
  else if pt.any (fun m => m.overlaps address page_list.GetNumPages) then
    (ResultCode.OverlappingMapping, pt)
  else
    (ResultCode.Success,
      { address := address, page_list := page_list, state := state,
        permission := permission } :: pt)

/-- Modelled from the spec: `PageTable::UnmapMemory`, whose code is not part of the sources
at hand.  A size that is not a whole number of pages is rejected, a span that is not a
mapping made at that address with that size is rejected, and otherwise that mapping is
removed, which frees its range. -/
def PageTable.UnmapMemory (pt : PageTable) (address size : Nat) : ResultCode × PageTable :=
  if size % PageSize ≠ 0 then
    (ResultCode.InvalidSize, pt)
  else if pt.any (fun m => m.spans address size) then
    (ResultCode.Success, pt.eraseP (fun m => m.spans address size))
  else
    (ResultCode.UnmappedRegion, pt)

/-- The two operations of the page table above. -/
def PageTable.ops : PageTableOps PageTable :=
  { MapPages := PageTable.MapPages, UnmapMemory := PageTable.UnmapMemory }

/-! ### The concrete scenario of the spec -/

/-- The process A of the scenario. -/
def procA : Nat := 1

/-- The process B of the scenario. -/
def procB : Nat := 2

/-- The two physical pages behind the shared memory of the scenario. -/
def twoPages : PageLinkedList := { nodes := [{ addr := 0x80000, num_pages := 2 }] }

/-- The shared memory of the scenario: `0x2000` bytes (2 pages), owned by A, with
`owner_permission = ReadWrite` and `user_permission = Read`. -/
def scenarioMemory : SharedMemory :=
  SharedMemory.Create 0 0 (some procA) twoPages MemoryPermission.ReadWrite
    MemoryPermission.Read 0x80000 0x2000 "shm"

/-- The system of the scenario before any call: no process has a mapping. -/
def scenarioStart : System PageTable :=
  { shared_memory := scenarioMemory, page_table := fun _ => [], log := [] }

/-- The mapping that A gets from mapping the scenario memory at `0x1000`. -/
def scenarioMappingA : Mapping :=
  { address := 0x1000, page_list := twoPages, state := MemoryState.Shared,
    permission := MemoryPermission.ReadWrite }

/-- The system of the scenario once A has mapped the memory at `0x1000`. -/
def scenarioMapped : System PageTable :=
  { shared_memory := scenarioMemory,
    page_table := Function.update (fun _ => []) procA [scenarioMappingA],
    log := [] }

/-! ### Auxiliary definitions for the statements -/

/-- The state `Map` leaves when it returns: the page table of the target process is the one
`MapPages` left, and the diagnostics `extra` were added. -/
def SharedMemory.Map.after {σ : Type} (ops : PageTableOps σ) (s : System σ)
    (target_process address : Nat) (permissions : MemoryPermission)
    (extra : List LogEntry) : System σ :=
  { shared_memory := s.shared_memory
    page_table := Function.update s.page_table target_process
      (ops.MapPages (s.page_table target_process) address s.shared_memory.page_list
        MemoryState.Shared permissions).2
    log := s.log ++ extra }

/-- The state in which a fatal assertion with message `msg` ends the run. -/
def System.flagged {σ : Type} (s : System σ) (msg : String) : System σ :=
  { s with log := s.log ++ [LogEntry.critical msg] }

/-- The diagnostics `Map` writes when its assertions return control. -/
def SharedMemory.Map.diagnostics (this : SharedMemory) (target_process size : Nat)
    (permissions : MemoryPermission) : List LogEntry :=
  (if this.page_list.GetNumPages ≠ SharedMemory.Map.page_count size then
    [LogEntry.critical "Page count does not match"] else []) ++
  (if permissions ≠ SharedMemory.Map.expected this target_process then
    [LogEntry.critical "Permission does not match"] else [])

/-- The page-table contract the round trip relies on: `UnmapMemory` over the span that a
successful `MapPages` covered, from the same address, succeeds and gives back the page
table `MapPages` started from. -/
def PageTableOps.UnmapUndoesMap {σ : Type} (ops : PageTableOps σ) : Prop :=
  ∀ (pt : σ) (address : Nat) (page_list : PageLinkedList) (state : MemoryState)
    (permission : MemoryPermission) (pt1 : σ),
    ops.MapPages pt address page_list state permission = (RESULT_SUCCESS, pt1) →
    ops.UnmapMemory pt1 address (page_list.GetNumPages * PageSize) = (RESULT_SUCCESS, pt)

/-- The data-model invariant of a shared memory object: its size is a positive whole
multiple of the page size, and its page list has `size / PageSize` pages. -/
def SharedMemory.Invariant (this : SharedMemory) : Prop :=
  0 < this.size ∧ this.size % PageSize = 0 ∧
    this.page_list.GetNumPages = this.size / PageSize

instance SharedMemory.decidableInvariant (this : SharedMemory) : Decidable this.Invariant := by
  unfold SharedMemory.Invariant
  infer_instance

/-- The system `s` with the page table of process `p` replaced by `pt`. -/
def System.withPageTable {σ : Type} (s : System σ) (p : Nat) (pt : σ) : System σ :=
  { s with page_table := Function.update s.page_table p pt }

/-! ### What `Map` does in each case -/

/-- When both checks pass, `Map` is the call of `MapPages`. -/
theorem SharedMemory.Map_of_valid {σ : Type} (ops : PageTableOps σ) (fatal : Bool)
    (s : System σ) (target_process address size : Nat) (permissions : MemoryPermission)
    (hcount : s.shared_memory.page_list.GetNumPages = SharedMemory.Map.page_count size)
    (hperm : permissions = SharedMemory.Map.expected s.shared_memory target_process) :
    SharedMemory.Map ops fatal s target_process address size permissions =
      Run.ret
        (ops.MapPages (s.page_table target_process) address s.shared_memory.page_list
          MemoryState.Shared permissions).1
        (SharedMemory.Map.after ops s target_process address permissions []) := by
  simp [SharedMemory.Map, SharedMemory.Map.after, hcount, ← hperm]

/-- When the assertions return control, `Map` always reaches `MapPages` and returns its
result, whatever the checks found. -/
theorem SharedMemory.Map_of_not_fatal {σ : Type} (ops : PageTableOps σ)
    (s : System σ) (target_process address size : Nat) (permissions : MemoryPermission) :
    SharedMemory.Map ops false s target_process address size permissions =
      Run.ret
        (ops.MapPages (s.page_table target_process) address s.shared_memory.page_list
          MemoryState.Shared permissions).1
        (SharedMemory.Map.after ops s target_process address permissions
          (SharedMemory.Map.diagnostics s.shared_memory target_process size permissions)) := by
  by_cases hcount : s.shared_memory.page_list.GetNumPages = SharedMemory.Map.page_count size <;>
  by_cases hperm : permissions = SharedMemory.Map.expected s.shared_memory target_process <;>
  simp [SharedMemory.Map, SharedMemory.Map.after, SharedMemory.Map.diagnostics,
    UNIMPLEMENTED_MSG, hcount, hperm]

/-- When the assertions are fatal and the page count differs, `Map` ends in the first one. -/
theorem SharedMemory.Map_of_fatal_count {σ : Type} (ops : PageTableOps σ)
    (s : System σ) (target_process address size : Nat) (permissions : MemoryPermission)
    (hcount : s.shared_memory.page_list.GetNumPages ≠ SharedMemory.Map.page_count size) :
    SharedMemory.Map ops true s target_process address size permissions =
      Run.crashed (s.flagged "Page count does not match") := by
  simp [SharedMemory.Map, UNIMPLEMENTED_MSG, System.flagged, hcount]

/-- When the assertions are fatal, the page count matches and the permission differs, `Map`
ends in the second one. -/
theorem SharedMemory.Map_of_fatal_perm {σ : Type} (ops : PageTableOps σ)
    (s : System σ) (target_process address size : Nat) (permissions : MemoryPermission)
    (hcount : s.shared_memory.page_list.GetNumPages = SharedMemory.Map.page_count size)
    (hperm : permissions ≠ SharedMemory.Map.expected s.shared_memory target_process) :
    SharedMemory.Map ops true s target_process address size permissions =
      Run.crashed (s.flagged "Permission does not match") := by
  simp [SharedMemory.Map, UNIMPLEMENTED_MSG, System.flagged, hcount, hperm]

/-- Whatever the outcome, `Map` leaves the object as it was, and leaves the page tables
either as they were or with the target's replaced by the one `MapPages` left. -/
theorem SharedMemory.Map_state {σ : Type} (ops : PageTableOps σ) (fatal : Bool)
    (s : System σ) (target_process address size : Nat) (permissions : MemoryPermission) :
    (SharedMemory.Map ops fatal s target_process address size permissions).state.shared_memory
      = s.shared_memory ∧
    ((SharedMemory.Map ops fatal s target_process address size permissions).state.page_table
        = s.page_table ∨
      (SharedMemory.Map ops fatal s target_process address size permissions).state.page_table
        = Function.update s.page_table target_process
          (ops.MapPages (s.page_table target_process) address s.shared_memory.page_list
            MemoryState.Shared permissions).2) := by
  by_cases hcount : s.shared_memory.page_list.GetNumPages = SharedMemory.Map.page_count size <;>
  by_cases hperm : permissions = SharedMemory.Map.expected s.shared_memory target_process <;>
  cases fatal <;>
  simp [SharedMemory.Map, UNIMPLEMENTED_MSG, Run.state, hcount, hperm]

/-- When `Map` returns, its result is the one of `MapPages` and the target's page table is
the one `MapPages` left. -/
theorem SharedMemory.Map_ret_inv {σ : Type} (ops : PageTableOps σ) (fatal : Bool)
    (s : System σ) (target_process address size : Nat) (permissions : MemoryPermission)
    (rc : ResultCode) (s1 : System σ)
    (hmap : SharedMemory.Map ops fatal s target_process address size permissions =
      Run.ret rc s1) :
    rc = (ops.MapPages (s.page_table target_process) address s.shared_memory.page_list
        MemoryState.Shared permissions).1 ∧
    s1.shared_memory = s.shared_memory ∧
    s1.page_table = Function.update s.page_table target_process
      (ops.MapPages (s.page_table target_process) address s.shared_memory.page_list
        MemoryState.Shared permissions).2 := by
  cases fatal with
  | false =>
    rw [SharedMemory.Map_of_not_fatal] at hmap
    injection hmap with h1 h2
    subst h1
    subst h2
    simp [SharedMemory.Map.after]
  | true =>
    by_cases hcount :
      s.shared_memory.page_list.GetNumPages = SharedMemory.Map.page_count size
    · by_cases hperm : permissions = SharedMemory.Map.expected s.shared_memory target_process
      · rw [SharedMemory.Map_of_valid ops true s target_process address size permissions
          hcount hperm] at hmap
        injection hmap with h1 h2
        subst h1
        subst h2
        simp [SharedMemory.Map.after]
      · rw [SharedMemory.Map_of_fatal_perm ops s target_process address size permissions
          hcount hperm] at hmap
        cases hmap
    · rw [SharedMemory.Map_of_fatal_count ops s target_process address size permissions
        hcount] at hmap
      cases hmap

/-- The page table of this development meets that contract. -/
theorem PageTable.ops_unmapUndoesMap : PageTable.ops.UnmapUndoesMap := by
  intro pt address page_list state permission pt1 h
  simp only [PageTable.ops, PageTable.MapPages, RESULT_SUCCESS] at h
  split_ifs at h with h1 h2
  · cases h
  · cases h
  · simp only [Prod.mk.injEq, true_and] at h
    subst h
    simp [PageTable.ops, PageTable.UnmapMemory, RESULT_SUCCESS, Mapping.spans]

/-- A valid `Map`, with the state it leaves written through `withPageTable`. -/
theorem SharedMemory.Map_of_valid_withPageTable {σ : Type} (ops : PageTableOps σ)
    (fatal : Bool) (s : System σ) (target_process address size : Nat)
    (permissions : MemoryPermission)
    (hcount : s.shared_memory.page_list.GetNumPages = SharedMemory.Map.page_count size)
    (hperm : permissions = SharedMemory.Map.expected s.shared_memory target_process) :
    SharedMemory.Map ops fatal s target_process address size permissions =
      Run.ret
        (ops.MapPages (s.page_table target_process) address s.shared_memory.page_list
          MemoryState.Shared permissions).1
        (s.withPageTable target_process
          (ops.MapPages (s.page_table target_process) address s.shared_memory.page_list
            MemoryState.Shared permissions).2) := by
  rw [SharedMemory.Map_of_valid ops fatal s target_process address size permissions
    hcount hperm]
  simp [SharedMemory.Map.after, System.withPageTable]

/-- Without wrap-around, `page_count` is the usual rounded-up quotient. -/
theorem SharedMemory.Map.page_count_of_le (size : Nat) (hsize : size ≤ 2 ^ 64 - PageSize) :
    SharedMemory.Map.page_count size = (size + 4095) / 4096 := by
  have h1 : size + 4095 < 2 ^ 64 := by
    simp only [PageSize] at hsize
    omega
  simp only [SharedMemory.Map.page_count, PageSize]
  rw [show size + 4096 - 1 = size + 4095 by omega, Nat.mod_eq_of_lt h1]

/-- The ceiling of `size / PageSize`, taken in the rationals, as a quotient of naturals. -/
theorem Memory.ceil_div_PageSize (size : Nat) :
    ⌈(size : ℚ) / (PageSize : ℚ)⌉₊ = (size + 4095) / 4096 := by
  apply eq_of_forall_ge_iff
  intro m
  have hpos : (0 : ℚ) < ((PageSize : ℕ) : ℚ) := by simp [PageSize]
  rw [Nat.ceil_le, div_le_iff₀ hpos]
  have hcast : (size : ℚ) ≤ (m : ℚ) * ((PageSize : ℕ) : ℚ) ↔ size ≤ m * PageSize := by
    norm_cast
  rw [hcast]
  simp only [PageSize]
  omega

/-- The diagnostics a call of `Map` adds to the log, however it ends. -/
theorem SharedMemory.Map_log {σ : Type} (ops : PageTableOps σ) (fatal : Bool)
    (s : System σ) (target_process address size : Nat) (permissions : MemoryPermission) :
    (SharedMemory.Map ops fatal s target_process address size permissions).state.log =
      s.log ++
        (if s.shared_memory.page_list.GetNumPages ≠ SharedMemory.Map.page_count size then
          LogEntry.critical "Page count does not match" ::
            (if fatal = false ∧
                permissions ≠ SharedMemory.Map.expected s.shared_memory target_process then
              [LogEntry.critical "Permission does not match"] else [])
        else if permissions ≠ SharedMemory.Map.expected s.shared_memory target_process then
          [LogEntry.critical "Permission does not match"]
        else []) := by
  by_cases hcount : s.shared_memory.page_list.GetNumPages = SharedMemory.Map.page_count size <;>
  by_cases hperm : permissions = SharedMemory.Map.expected s.shared_memory target_process <;>
  cases fatal <;>
  simp [SharedMemory.Map, UNIMPLEMENTED_MSG, Run.state, hcount, hperm]

/-! ### The claims about `Map` and `Unmap` -/

/-- C1, counterexample.  In the scenario, A maps the 2-page memory with `size = 0x1000`
(one page) and its own permission.  When the assertion returns control, `Map` returns
`Success`, not `SizeMismatch`, and A's page table has gained the mapping; when the
assertion is fatal, `Map` returns nothing at all. -/
theorem SharedMemory.Map_size_mismatch_counterexample :
    scenarioStart.shared_memory.page_list.GetNumPages ≠ SharedMemory.Map.page_count 0x1000 ∧
    (SharedMemory.Map PageTable.ops false scenarioStart procA 0x1000 0x1000
      MemoryPermission.ReadWrite).result = some ResultCode.Success ∧
    (SharedMemory.Map PageTable.ops false scenarioStart procA 0x1000 0x1000
      MemoryPermission.ReadWrite).state.page_table procA = [scenarioMappingA] ∧
    scenarioStart.page_table procA = [] ∧
    (SharedMemory.Map PageTable.ops true scenarioStart procA 0x1000 0x1000
      MemoryPermission.ReadWrite).result = none := by
  decide

/-- C1, amended.  When the page count of `size` differs from that of the stored page list,
`Map` raises the assertion "Page count does not match" first, whatever the permissions
are, and has no size-mismatch result of its own.  If the assertion is fatal the run ends
there: no page table is touched and `MapPages` is not called.  If the assertion returns
control, `Map` goes on to the permission check and to `MapPages` with the stored page
list, and returns the result of `MapPages`. -/
theorem SharedMemory.Map_page_count_mismatch {σ : Type} (ops : PageTableOps σ)
    (s : System σ) (target_process address size : Nat) (permissions : MemoryPermission)
    (hcount : s.shared_memory.page_list.GetNumPages ≠ SharedMemory.Map.page_count size) :
    SharedMemory.Map ops true s target_process address size permissions =
      Run.crashed (s.flagged "Page count does not match") ∧
    SharedMemory.Map ops false s target_process address size permissions =
      Run.ret
        (ops.MapPages (s.page_table target_process) address s.shared_memory.page_list
          MemoryState.Shared permissions).1
        (SharedMemory.Map.after ops s target_process address permissions
          (LogEntry.critical "Page count does not match" ::
            (if permissions ≠ SharedMemory.Map.expected s.shared_memory target_process then
              [LogEntry.critical "Permission does not match"] else []))) := by
  refine ⟨SharedMemory.Map_of_fatal_count ops s target_process address size permissions hcount, ?_⟩
  rw [SharedMemory.Map_of_not_fatal]
  simp [SharedMemory.Map.diagnostics, hcount]

/-- C1, witness of the amended claim in the scenario: A maps with `size = 0x1000`. -/
theorem SharedMemory.Map_page_count_mismatch_witness :
    SharedMemory.Map PageTable.ops true scenarioStart procA 0x1000 0x1000
        MemoryPermission.ReadWrite =
      Run.crashed (scenarioStart.flagged "Page count does not match") ∧
    SharedMemory.Map PageTable.ops false scenarioStart procA 0x1000 0x1000
        MemoryPermission.ReadWrite =
      Run.ret
        (PageTable.ops.MapPages (scenarioStart.page_table procA) 0x1000
          scenarioStart.shared_memory.page_list MemoryState.Shared
          MemoryPermission.ReadWrite).1
        (SharedMemory.Map.after PageTable.ops scenarioStart procA 0x1000
          MemoryPermission.ReadWrite
          (LogEntry.critical "Page count does not match" ::
            (if MemoryPermission.ReadWrite ≠
                SharedMemory.Map.expected scenarioStart.shared_memory procA then
              [LogEntry.critical "Permission does not match"] else []))) :=
  SharedMemory.Map_page_count_mismatch PageTable.ops scenarioStart procA 0x1000 0x1000
    MemoryPermission.ReadWrite (by decide)

/-- C2, counterexample.  In the scenario, B (not the owner) maps the 2-page memory at
`0x5000` with `size = 0x2000` and `ReadWrite`, where `Read` is expected.  When the
assertion returns control, `Map` returns `Success`, not `PermissionMismatch`, and B's page
table has gained a `ReadWrite` mapping; when the assertion is fatal, `Map` returns
nothing at all. -/
theorem SharedMemory.Map_permission_mismatch_counterexample :
    scenarioStart.shared_memory.page_list.GetNumPages = SharedMemory.Map.page_count 0x2000 ∧
    MemoryPermission.ReadWrite ≠ SharedMemory.Map.expected scenarioStart.shared_memory procB ∧
    (SharedMemory.Map PageTable.ops false scenarioStart procB 0x5000 0x2000
      MemoryPermission.ReadWrite).result = some ResultCode.Success ∧
    (SharedMemory.Map PageTable.ops false scenarioStart procB 0x5000 0x2000
      MemoryPermission.ReadWrite).state.page_table procB =
        [{ address := 0x5000, page_list := twoPages, state := MemoryState.Shared,
           permission := MemoryPermission.ReadWrite }] ∧
    scenarioStart.page_table procB = [] ∧
    (SharedMemory.Map PageTable.ops true scenarioStart procB 0x5000 0x2000
      MemoryPermission.ReadWrite).result = none := by
  decide

/-- C2, amended.  When the page count matches and the supplied permissions differ from the
expected permission (`owner_permission` for the owner process, `user_permission`
otherwise), `Map` raises the assertion "Permission does not match" and has no
permission-mismatch result of its own.  If the assertion is fatal the run ends there: no
page table is touched and `MapPages` is not called.  If the assertion returns control,
`Map` goes on to `MapPages` with the supplied permissions and returns its result. -/
theorem SharedMemory.Map_permission_mismatch {σ : Type} (ops : PageTableOps σ)
    (s : System σ) (target_process address size : Nat) (permissions : MemoryPermission)
    (hcount : s.shared_memory.page_list.GetNumPages = SharedMemory.Map.page_count size)
    (hperm : permissions ≠
      (if some target_process = s.shared_memory.owner_process
        then s.shared_memory.owner_permission else s.shared_memory.user_permission)) :
    SharedMemory.Map ops true s target_process address size permissions =
      Run.crashed (s.flagged "Permission does not match") ∧
    SharedMemory.Map ops false s target_process address size permissions =
      Run.ret
        (ops.MapPages (s.page_table target_process) address s.shared_memory.page_list
          MemoryState.Shared permissions).1
        (SharedMemory.Map.after ops s target_process address permissions
          [LogEntry.critical "Permission does not match"]) := by
  have hperm2 : permissions ≠ SharedMemory.Map.expected s.shared_memory target_process := hperm
  refine ⟨SharedMemory.Map_of_fatal_perm ops s target_process address size permissions
    hcount hperm2, ?_⟩
  rw [SharedMemory.Map_of_not_fatal]
  simp [SharedMemory.Map.diagnostics, hcount, hperm2]

/-- C2, witness of the amended claim in the scenario: B maps at `0x5000` with `ReadWrite`. -/
theorem SharedMemory.Map_permission_mismatch_witness :
    SharedMemory.Map PageTable.ops true scenarioStart procB 0x5000 0x2000
        MemoryPermission.ReadWrite =
      Run.crashed (scenarioStart.flagged "Permission does not match") ∧
    SharedMemory.Map PageTable.ops false scenarioStart procB 0x5000 0x2000
        MemoryPermission.ReadWrite =
      Run.ret
        (PageTable.ops.MapPages (scenarioStart.page_table procB) 0x5000
          scenarioStart.shared_memory.page_list MemoryState.Shared
          MemoryPermission.ReadWrite).1
        (SharedMemory.Map.after PageTable.ops scenarioStart procB 0x5000
          MemoryPermission.ReadWrite [LogEntry.critical "Permission does not match"]) :=
  SharedMemory.Map_permission_mismatch PageTable.ops scenarioStart procB 0x5000 0x2000
    MemoryPermission.ReadWrite (by decide) (by decide)

/-- C3.  When `unmap_size` is not the stored size, `Unmap` returns `ERR_INVALID_SIZE`
whatever the address is, and leaves every page table and the object as they were:
`UnmapMemory` is not called. -/
theorem SharedMemory.Unmap_wrong_size {σ : Type} (ops : PageTableOps σ) (s : System σ)
    (target_process address unmap_size : Nat)
    (hsize : unmap_size ≠ s.shared_memory.size) :
    (SharedMemory.Unmap ops s target_process address unmap_size).1 = ERR_INVALID_SIZE ∧
    (SharedMemory.Unmap ops s target_process address unmap_size).2.page_table =
      s.page_table ∧
    (SharedMemory.Unmap ops s target_process address unmap_size).2.shared_memory =
      s.shared_memory := by
  simp [SharedMemory.Unmap, hsize]

/-- C3, witness in the scenario.  A has the memory of `0x2000` bytes mapped at `0x1000`
(the state `Map` left); `Unmap` with size `0x1000` returns `ERR_INVALID_SIZE` and the
region stays mapped. -/
theorem SharedMemory.Unmap_wrong_size_witness :
    SharedMemory.Map PageTable.ops false scenarioStart procA 0x1000 0x2000
        MemoryPermission.ReadWrite = Run.ret ResultCode.Success scenarioMapped ∧
    scenarioMapped.page_table procA = [scenarioMappingA] ∧
    (SharedMemory.Unmap PageTable.ops scenarioMapped procA 0x1000 0x1000).1 =
      ResultCode.InvalidSize ∧
    (SharedMemory.Unmap PageTable.ops scenarioMapped procA 0x1000 0x1000).2.page_table =
      scenarioMapped.page_table ∧
    (SharedMemory.Unmap PageTable.ops scenarioMapped procA 0x1000 0x1000).2.shared_memory =
      scenarioMapped.shared_memory :=
  ⟨rfl, by decide,
    SharedMemory.Unmap_wrong_size PageTable.ops scenarioMapped procA 0x1000 0x1000
      (by decide)⟩

/-- C4.  When the page count of `size` is that of the stored page list and `permissions`
is the expected permission (`owner_permission` exactly when the target is the stored
owner process, `user_permission` otherwise), `Map` returns what
`MapPages(address, page_list, Shared, permissions)` returns on the target's page table
and leaves that page table as `MapPages` left it; nothing else changes and no diagnostic
is written, whatever the assertions would do. -/
theorem SharedMemory.Map_delegates_to_MapPages {σ : Type} (ops : PageTableOps σ)
    (fatal : Bool) (s : System σ) (target_process address size : Nat)
    (permissions : MemoryPermission)
    (hcount : s.shared_memory.page_list.GetNumPages = SharedMemory.Map.page_count size)
    (hperm : permissions =
      (if some target_process = s.shared_memory.owner_process
        then s.shared_memory.owner_permission else s.shared_memory.user_permission)) :
    SharedMemory.Map ops fatal s target_process address size permissions =
      Run.ret
        (ops.MapPages (s.page_table target_process) address s.shared_memory.page_list
          MemoryState.Shared permissions).1
        { s with
          page_table := Function.update s.page_table target_process
            (ops.MapPages (s.page_table target_process) address s.shared_memory.page_list
              MemoryState.Shared permissions).2 } := by
  have hperm2 : permissions = SharedMemory.Map.expected s.shared_memory target_process := hperm
  simp [SharedMemory.Map, hcount, ← hperm2]

/-- C4, witness in the scenario: A maps at `0x1000` with `size = 0x2000` and `ReadWrite`;
the call succeeds and A's page table holds the range tagged `Shared`, `ReadWrite`. -/
theorem SharedMemory.Map_delegates_to_MapPages_witness :
    SharedMemory.Map PageTable.ops true scenarioStart procA 0x1000 0x2000
        MemoryPermission.ReadWrite =
      Run.ret
        (PageTable.ops.MapPages (scenarioStart.page_table procA) 0x1000
          scenarioStart.shared_memory.page_list MemoryState.Shared
          MemoryPermission.ReadWrite).1
        { scenarioStart with
          page_table := Function.update scenarioStart.page_table procA
            (PageTable.ops.MapPages (scenarioStart.page_table procA) 0x1000
              scenarioStart.shared_memory.page_list MemoryState.Shared
              MemoryPermission.ReadWrite).2 } ∧
    PageTable.ops.MapPages (scenarioStart.page_table procA) 0x1000
        scenarioStart.shared_memory.page_list MemoryState.Shared
        MemoryPermission.ReadWrite = (ResultCode.Success, [scenarioMappingA]) :=
  ⟨SharedMemory.Map_delegates_to_MapPages PageTable.ops true scenarioStart procA 0x1000
    0x2000 MemoryPermission.ReadWrite (by decide) (by decide), by decide⟩

/-- C5.  When `unmap_size` is the stored size, `Unmap` returns what
`UnmapMemory(address, size)` returns on the target's page table, success or error alike,
and leaves that page table as `UnmapMemory` left it; nothing else changes. -/
theorem SharedMemory.Unmap_delegates_to_UnmapMemory {σ : Type} (ops : PageTableOps σ)
    (s : System σ) (target_process address unmap_size : Nat)
    (hsize : unmap_size = s.shared_memory.size) :
    SharedMemory.Unmap ops s target_process address unmap_size =
      ((ops.UnmapMemory (s.page_table target_process) address s.shared_memory.size).1,
        { s with
          page_table := Function.update s.page_table target_process
            (ops.UnmapMemory (s.page_table target_process) address
              s.shared_memory.size).2 }) := by
  simp [SharedMemory.Unmap, hsize]

/-- C5, witness in the scenario: with the full size `0x2000`, unmapping at `0x3000`, where
A has no mapping, returns the page table's own error `UnmappedRegion`. -/
theorem SharedMemory.Unmap_delegates_to_UnmapMemory_witness :
    SharedMemory.Unmap PageTable.ops scenarioMapped procA 0x3000 0x2000 =
      ((PageTable.ops.UnmapMemory (scenarioMapped.page_table procA) 0x3000
          scenarioMapped.shared_memory.size).1,
        { scenarioMapped with
          page_table := Function.update scenarioMapped.page_table procA
            (PageTable.ops.UnmapMemory (scenarioMapped.page_table procA) 0x3000
              scenarioMapped.shared_memory.size).2 }) ∧
    (PageTable.ops.UnmapMemory (scenarioMapped.page_table procA) 0x3000
      scenarioMapped.shared_memory.size).1 = ResultCode.UnmappedRegion ∧
    PageTable.ops.UnmapMemory (scenarioMapped.page_table procA) 0x1000
      scenarioMapped.shared_memory.size = (ResultCode.Success, []) :=
  ⟨SharedMemory.Unmap_delegates_to_UnmapMemory PageTable.ops scenarioMapped procA 0x3000
    0x2000 (by decide), by decide, by decide⟩

/-- C6, counterexample.  The page table meets the contract that unmapping undoes mapping.
In the scenario A maps the memory (stored size `0x2000`, 2 pages) at `0x1000` with
`s = 0x1FFF`, which also rounds to 2 pages: `Map` succeeds.  `Unmap` at the same address
with the same `s = 0x1FFF` returns `ERR_INVALID_SIZE`, and A's page table still holds the
mapping instead of being as before the `Map`. -/
theorem SharedMemory.Map_Unmap_round_trip_counterexample :
    PageTable.ops.UnmapUndoesMap ∧
    SharedMemory.Map PageTable.ops true scenarioStart procA 0x1000 0x1FFF
        MemoryPermission.ReadWrite = Run.ret RESULT_SUCCESS scenarioMapped ∧
    SharedMemory.Map PageTable.ops false scenarioStart procA 0x1000 0x1FFF
        MemoryPermission.ReadWrite = Run.ret RESULT_SUCCESS scenarioMapped ∧
    (SharedMemory.Unmap PageTable.ops scenarioMapped procA 0x1000 0x1FFF).1 =
      ERR_INVALID_SIZE ∧
    (SharedMemory.Unmap PageTable.ops scenarioMapped procA 0x1000 0x1FFF).1 ≠
      RESULT_SUCCESS ∧
    (SharedMemory.Unmap PageTable.ops scenarioMapped procA 0x1000 0x1FFF).2.page_table procA
      = [scenarioMappingA] ∧
    (SharedMemory.Unmap PageTable.ops scenarioMapped procA 0x1000 0x1FFF).2.page_table procA
      ≠ scenarioStart.page_table procA :=
  ⟨PageTable.ops_unmapUndoesMap, rfl, rfl, by decide, by decide, by decide, by decide⟩

/-- C6, amended.  Take an object whose stored size is the byte length of its page list
(`GetNumPages() * PageSize`) and a page table on which unmapping undoes mapping.  If
`Map(target, address, s, permissions)` returns success and `s` is the stored size of the
object, then `Unmap(target, address, s)` returns success too, and every page table and the
object are as they were before the `Map`. -/
theorem SharedMemory.Map_Unmap_round_trip {σ : Type} (ops : PageTableOps σ) (fatal : Bool)
    (s s1 : System σ) (target_process address size : Nat) (permissions : MemoryPermission)
    (hinv : ops.UnmapUndoesMap)
    (hbytes : s.shared_memory.size = s.shared_memory.page_list.GetNumPages * PageSize)
    (hsize : size = s.shared_memory.size)
    (hmap : SharedMemory.Map ops fatal s target_process address size permissions =
      Run.ret RESULT_SUCCESS s1) :
    (SharedMemory.Unmap ops s1 target_process address size).1 = RESULT_SUCCESS ∧
    (SharedMemory.Unmap ops s1 target_process address size).2.page_table = s.page_table ∧
    (SharedMemory.Unmap ops s1 target_process address size).2.shared_memory =
      s.shared_memory := by
  obtain ⟨hrc, hshm, hpt⟩ := SharedMemory.Map_ret_inv ops fatal s target_process address size
    permissions RESULT_SUCCESS s1 hmap
  have hundo := hinv (s.page_table target_process) address s.shared_memory.page_list
    MemoryState.Shared permissions
    (ops.MapPages (s.page_table target_process) address s.shared_memory.page_list
      MemoryState.Shared permissions).2 (by rw [hrc])
  rw [← hbytes] at hundo
  have hsize1 : size = s1.shared_memory.size := by rw [hshm]; exact hsize
  simp [SharedMemory.Unmap, hsize1, hshm, hpt, hundo]

/-- C6, witness of the amended claim in the scenario: A maps at `0x1000` with the stored
size `0x2000` and unmaps with the same address and size. -/
theorem SharedMemory.Map_Unmap_round_trip_witness :
    SharedMemory.Map PageTable.ops true scenarioStart procA 0x1000 0x2000
        MemoryPermission.ReadWrite = Run.ret RESULT_SUCCESS scenarioMapped ∧
    (SharedMemory.Unmap PageTable.ops scenarioMapped procA 0x1000 0x2000).1 =
      RESULT_SUCCESS ∧
    (SharedMemory.Unmap PageTable.ops scenarioMapped procA 0x1000 0x2000).2.page_table =
      scenarioStart.page_table ∧
    (SharedMemory.Unmap PageTable.ops scenarioMapped procA 0x1000 0x2000).2.shared_memory =
      scenarioStart.shared_memory :=
  ⟨rfl, SharedMemory.Map_Unmap_round_trip PageTable.ops true scenarioStart scenarioMapped
    procA 0x1000 0x2000 MemoryPermission.ReadWrite PageTable.ops_unmapUndoesMap
    (by decide) (by decide) rfl⟩

/-- C7, counterexample.  `Create` accepts the size `0x1001`, which is not a multiple of the
page size, with a 2-page list: the object it returns has these very fields and does not
satisfy the invariant. -/
theorem SharedMemory.Create_invariant_counterexample :
    (SharedMemory.Create 0 0 (some procA) twoPages MemoryPermission.ReadWrite
      MemoryPermission.Read 0x80000 0x1001 "shm").size = 0x1001 ∧
    (SharedMemory.Create 0 0 (some procA) twoPages MemoryPermission.ReadWrite
      MemoryPermission.Read 0x80000 0x1001 "shm").page_list.GetNumPages = 2 ∧
    ¬ (SharedMemory.Create 0 0 (some procA) twoPages MemoryPermission.ReadWrite
      MemoryPermission.Read 0x80000 0x1001 "shm").Invariant := by
  decide

/-- C7, amended.  `Create` validates nothing: the object it returns has exactly the
arguments as its fields, so it satisfies the invariant (size a positive multiple of the
page size, `GetNumPages() = size / PageSize`) exactly when the arguments do.  `Map` and
`Unmap` never change the fields, so the object is the same after every call. -/
theorem SharedMemory.Create_stores_arguments {σ : Type} (ops : PageTableOps σ) (fatal : Bool)
    (kernel device_memory : Nat) (owner_process : Option Nat)
    (page_list : PageLinkedList) (owner_permission user_permission : MemoryPermission)
    (physical_address size : Nat) (name : String)
    (page_table : Nat → σ) (log : List LogEntry)
    (target_process address map_size unmap_size : Nat) (permissions : MemoryPermission) :
    (SharedMemory.Create kernel device_memory owner_process page_list owner_permission
        user_permission physical_address size name =
      { kernel := kernel, device_memory := device_memory, owner_process := owner_process,
        page_list := page_list, owner_permission := owner_permission,
        user_permission := user_permission, physical_address := physical_address,
        size := size, name := name }) ∧
    ((SharedMemory.Create kernel device_memory owner_process page_list owner_permission
        user_permission physical_address size name).Invariant ↔
      (0 < size ∧ size % PageSize = 0 ∧ page_list.GetNumPages = size / PageSize)) ∧
    (SharedMemory.Map ops fatal
        { shared_memory := SharedMemory.Create kernel device_memory owner_process page_list
            owner_permission user_permission physical_address size name,
          page_table := page_table, log := log }
        target_process address map_size permissions).state.shared_memory =
      SharedMemory.Create kernel device_memory owner_process page_list owner_permission
        user_permission physical_address size name ∧
    (SharedMemory.Unmap ops
        { shared_memory := SharedMemory.Create kernel device_memory owner_process page_list
            owner_permission user_permission physical_address size name,
          page_table := page_table, log := log }
        target_process address unmap_size).2.shared_memory =
      SharedMemory.Create kernel device_memory owner_process page_list owner_permission
        user_permission physical_address size name := by
  refine ⟨rfl, Iff.rfl, ?_, ?_⟩
  · exact (SharedMemory.Map_state ops fatal _ target_process address map_size permissions).1
  · by_cases h : unmap_size = size <;> simp [SharedMemory.Unmap, SharedMemory.Create, h]

/-- C8.  `Map` and `Unmap` change nothing but the page table of the target process: for
every object (whoever owns it, a null owner included) and every call (whatever the size
and the permissions), however the call ends, the object is the same afterwards and the
page table of every process other than the target is the same.  Consequently, for an
object owned by A and a process B other than A, mapping into A with `owner_permission`
and into B with `user_permission` (each with a size of the right page count) both pass
validation in either order: each call is the call of `MapPages` on the page table its
process had at the start, and both orders end in the same system. -/
theorem SharedMemory.Map_Unmap_frame {σ : Type} (ops : PageTableOps σ) (fatal : Bool)
    (s : System σ) (target_process address size unmap_size : Nat)
    (permissions : MemoryPermission) :
    ((SharedMemory.Map ops fatal s target_process address size permissions).state.shared_memory
        = s.shared_memory ∧
      ∀ p : Nat, p ≠ target_process →
        (SharedMemory.Map ops fatal s target_process address size
          permissions).state.page_table p = s.page_table p) ∧
    ((SharedMemory.Unmap ops s target_process address unmap_size).2.shared_memory
        = s.shared_memory ∧
      ∀ p : Nat, p ≠ target_process →
        (SharedMemory.Unmap ops s target_process address unmap_size).2.page_table p
          = s.page_table p) ∧
    (∀ (A B addressA addressB sizeA sizeB : Nat) (rA rB : ResultCode × σ),
      s.shared_memory.owner_process = some A → B ≠ A →
      s.shared_memory.page_list.GetNumPages = SharedMemory.Map.page_count sizeA →
      s.shared_memory.page_list.GetNumPages = SharedMemory.Map.page_count sizeB →
      ops.MapPages (s.page_table A) addressA s.shared_memory.page_list
        MemoryState.Shared s.shared_memory.owner_permission = rA →
      ops.MapPages (s.page_table B) addressB s.shared_memory.page_list
        MemoryState.Shared s.shared_memory.user_permission = rB →
      SharedMemory.Map ops fatal s A addressA sizeA s.shared_memory.owner_permission =
        Run.ret rA.1 (s.withPageTable A rA.2) ∧
      SharedMemory.Map ops fatal (s.withPageTable A rA.2) B addressB sizeB
          s.shared_memory.user_permission =
        Run.ret rB.1 ((s.withPageTable A rA.2).withPageTable B rB.2) ∧
      SharedMemory.Map ops fatal s B addressB sizeB s.shared_memory.user_permission =
        Run.ret rB.1 (s.withPageTable B rB.2) ∧
      SharedMemory.Map ops fatal (s.withPageTable B rB.2) A addressA sizeA
          s.shared_memory.owner_permission =
        Run.ret rA.1 ((s.withPageTable B rB.2).withPageTable A rA.2) ∧
      (s.withPageTable A rA.2).withPageTable B rB.2 =
        (s.withPageTable B rB.2).withPageTable A rA.2) := by
  refine ⟨⟨?_, ?_⟩, ⟨?_, ?_⟩, ?_⟩
  · exact (SharedMemory.Map_state ops fatal s target_process address size permissions).1
  · intro p hp
    rcases (SharedMemory.Map_state ops fatal s target_process address size permissions).2
      with h | h
    · rw [h]
    · rw [h, Function.update_noteq hp]
  · by_cases h : unmap_size = s.shared_memory.size <;> simp [SharedMemory.Unmap, h]
  · intro p hp
    by_cases h : unmap_size = s.shared_memory.size <;>
      simp [SharedMemory.Unmap, h, Function.update_noteq hp]
  · intro A B addressA addressB sizeA sizeB rA rB howner hne hcountA hcountB hA hB
    have hAB : A ≠ B := fun h => hne h.symm
    have hexpA : ∀ t : System σ, t.shared_memory = s.shared_memory →
        s.shared_memory.owner_permission = SharedMemory.Map.expected t.shared_memory A := by
      intro t ht
      simp [SharedMemory.Map.expected, ht, howner]
    have hexpB : ∀ t : System σ, t.shared_memory = s.shared_memory →
        s.shared_memory.user_permission = SharedMemory.Map.expected t.shared_memory B := by
      intro t ht
      simp [SharedMemory.Map.expected, ht, howner, hne]
    refine ⟨?_, ?_, ?_, ?_, ?_⟩
    · rw [SharedMemory.Map_of_valid_withPageTable ops fatal s A addressA sizeA _ hcountA
        (hexpA s rfl), hA]
    · rw [SharedMemory.Map_of_valid_withPageTable ops fatal (s.withPageTable A rA.2) B
        addressB sizeB _ hcountB (hexpB _ rfl)]
      simp [System.withPageTable, Function.update_noteq hne, hB]
    · rw [SharedMemory.Map_of_valid_withPageTable ops fatal s B addressB sizeB _ hcountB
        (hexpB s rfl), hB]
    · rw [SharedMemory.Map_of_valid_withPageTable ops fatal (s.withPageTable B rB.2) A
        addressA sizeA _ hcountA (hexpA _ rfl)]
      simp [System.withPageTable, Function.update_noteq hAB, hA]
    · simp [System.withPageTable, Function.update_comm hne]

/-- C8, witness in the scenario.  The frame at a call that fails both checks (B maps with
a 1-page size and `ReadWrite`, the assertions returning control): the object and A's page
table are as before.  The two valid calls: A maps at `0x1000` with `ReadWrite` and B maps
at `0x5000` with `Read`, in either order. -/
theorem SharedMemory.Map_Unmap_frame_witness :
    (SharedMemory.Map PageTable.ops false scenarioStart procB 0x5000 0x1000
      MemoryPermission.ReadWrite).state.shared_memory = scenarioStart.shared_memory ∧
    (SharedMemory.Map PageTable.ops false scenarioStart procB 0x5000 0x1000
      MemoryPermission.ReadWrite).state.page_table procA = scenarioStart.page_table procA ∧
    (SharedMemory.Map PageTable.ops false scenarioStart procB 0x5000 0x1000
      MemoryPermission.ReadWrite).state.page_table procB ≠ scenarioStart.page_table procB ∧
    SharedMemory.Map PageTable.ops false scenarioStart procA 0x1000 0x2000
        MemoryPermission.ReadWrite =
      Run.ret ResultCode.Success (scenarioStart.withPageTable procA [scenarioMappingA]) ∧
    SharedMemory.Map PageTable.ops false
        (scenarioStart.withPageTable procA [scenarioMappingA])
        procB 0x5000 0x2000 MemoryPermission.Read =
      Run.ret ResultCode.Success
        ((scenarioStart.withPageTable procA [scenarioMappingA]).withPageTable procB
          [{ address := 0x5000, page_list := twoPages, state := MemoryState.Shared,
             permission := MemoryPermission.Read }]) ∧
    (scenarioStart.withPageTable procA [scenarioMappingA]).withPageTable procB
        [{ address := 0x5000, page_list := twoPages, state := MemoryState.Shared,
           permission := MemoryPermission.Read }] =
      (scenarioStart.withPageTable procB
        [{ address := 0x5000, page_list := twoPages, state := MemoryState.Shared,
           permission := MemoryPermission.Read }]).withPageTable procA [scenarioMappingA] :=
  have h := SharedMemory.Map_Unmap_frame PageTable.ops false scenarioStart procB 0x5000
    0x1000 0x1000 MemoryPermission.ReadWrite
  have h2 := h.2.2 procA procB 0x1000 0x5000 0x2000 0x2000
    (ResultCode.Success, [scenarioMappingA])
    (ResultCode.Success,
      [{ address := 0x5000, page_list := twoPages, state := MemoryState.Shared,
         permission := MemoryPermission.Read }])
    rfl (by decide) (by decide) (by decide) (by decide) (by decide)
  ⟨h.1.1, h.1.2 procA (by decide), by decide, h2.1, h2.2.1, h2.2.2.2.2⟩

/-- C10.  For every `size`, the page count that `Map` compares with the stored page list
is `((size + PageSize - 1) mod 2 ^ 64) / PageSize`, and the call writes the diagnostic
"Page count does not match" exactly when `GetNumPages()` differs from that value.  For a
`size` with `size ≤ 2 ^ 64 - PageSize` the value is the ceiling of `size / PageSize`, so
the size check passes exactly when `GetNumPages()` is that ceiling, and for `n ≥ 1` the
sizes of page count `n` are exactly those in `((n - 1) * PageSize, n * PageSize]`,
page-aligned or not, equal to the stored size or not.  For a 64-bit `size` above
`2 ^ 64 - PageSize` the sum wraps around: the page count is 0 and is not the ceiling. -/
theorem SharedMemory.Map_page_count_is_ceiling {σ : Type} (ops : PageTableOps σ)
    (fatal : Bool) (s : System σ) (target_process address size : Nat)
    (permissions : MemoryPermission) :
    SharedMemory.Map.page_count size = (size + PageSize - 1) % 2 ^ 64 / PageSize ∧
    PageSize = 0x1000 ∧
    (LogEntry.critical "Page count does not match" ∈
        ((SharedMemory.Map ops fatal s target_process address size permissions).state.log.drop
          s.log.length) ↔
      s.shared_memory.page_list.GetNumPages ≠ (size + PageSize - 1) % 2 ^ 64 / PageSize) ∧
    (size ≤ 2 ^ 64 - PageSize →
      SharedMemory.Map.page_count size = ⌈(size : ℚ) / (PageSize : ℚ)⌉₊ ∧
      (LogEntry.critical "Page count does not match" ∈
          ((SharedMemory.Map ops fatal s target_process address size
            permissions).state.log.drop s.log.length) ↔
        s.shared_memory.page_list.GetNumPages ≠ ⌈(size : ℚ) / (PageSize : ℚ)⌉₊) ∧
      (∀ n : Nat, 0 < n →
        (SharedMemory.Map.page_count size = n ↔
          (n - 1) * PageSize < size ∧ size ≤ n * PageSize))) ∧
    (2 ^ 64 - PageSize < size → size < 2 ^ 64 →
      SharedMemory.Map.page_count size = 0 ∧
      ⌈(size : ℚ) / (PageSize : ℚ)⌉₊ = 2 ^ 52 ∧
      SharedMemory.Map.page_count size ≠ ⌈(size : ℚ) / (PageSize : ℚ)⌉₊) := by
  have hlog : LogEntry.critical "Page count does not match" ∈
        ((SharedMemory.Map ops fatal s target_process address size permissions).state.log.drop
          s.log.length) ↔
      s.shared_memory.page_list.GetNumPages ≠ SharedMemory.Map.page_count size := by
    rw [SharedMemory.Map_log, List.drop_left]
    by_cases hcount :
      s.shared_memory.page_list.GetNumPages = SharedMemory.Map.page_count size
    · by_cases hperm : permissions = SharedMemory.Map.expected s.shared_memory target_process
      · simp [hcount, hperm]
      · simp only [hcount, ne_eq, not_true_eq_false, hperm, not_false_eq_true, if_true,
          if_false, List.mem_singleton, LogEntry.critical.injEq, iff_false]
        decide
    · simp [hcount]
  have hceil := Memory.ceil_div_PageSize size
  refine ⟨rfl, rfl, hlog, ?_, ?_⟩
  · intro hsize
    have hpc := SharedMemory.Map.page_count_of_le size hsize
    refine ⟨by rw [hpc, hceil], ?_, ?_⟩
    · rw [hlog, hceil, ← hpc]
    · intro n hn
      rw [hpc]
      simp only [PageSize]
      omega
  · intro hlo hhi
    rw [hceil]
    simp only [SharedMemory.Map.page_count, PageSize] at hlo ⊢
    omega

/-- C10, witness in the scenario.  `size = 0x1001` is not page-aligned and is not the
stored size `0x2000`, yet its page count is 2 as for the 2-page object, and `Map` then
succeeds without a diagnostic.  `size = 2 ^ 64 - 1` wraps around: its page count is 0,
not the ceiling `2 ^ 52`. -/
theorem SharedMemory.Map_page_count_is_ceiling_witness :
    SharedMemory.Map.page_count 0x1001 = 2 ∧
    scenarioStart.shared_memory.size ≠ 0x1001 ∧
    SharedMemory.Map PageTable.ops true scenarioStart procA 0x1000 0x1001
        MemoryPermission.ReadWrite = Run.ret RESULT_SUCCESS scenarioMapped ∧
    SharedMemory.Map.page_count 0x1001 = ⌈((0x1001 : ℕ) : ℚ) / (PageSize : ℚ)⌉₊ ∧
    (LogEntry.critical "Page count does not match" ∈
        ((SharedMemory.Map PageTable.ops true scenarioStart procA 0x1000 0x1001
          MemoryPermission.ReadWrite).state.log.drop scenarioStart.log.length) ↔
      scenarioStart.shared_memory.page_list.GetNumPages ≠
        ⌈((0x1001 : ℕ) : ℚ) / (PageSize : ℚ)⌉₊) ∧
    (∀ n : Nat, 0 < n →
      (SharedMemory.Map.page_count 0x1001 = n ↔
        (n - 1) * PageSize < 0x1001 ∧ 0x1001 ≤ n * PageSize)) ∧
    SharedMemory.Map.page_count (2 ^ 64 - 1) = 0 ∧
    ⌈((2 ^ 64 - 1 : ℕ) : ℚ) / (PageSize : ℚ)⌉₊ = 2 ^ 52 ∧
    SharedMemory.Map.page_count (2 ^ 64 - 1) ≠ ⌈((2 ^ 64 - 1 : ℕ) : ℚ) / (PageSize : ℚ)⌉₊ :=
  have h1 := (SharedMemory.Map_page_count_is_ceiling PageTable.ops true scenarioStart procA
    0x1000 0x1001 MemoryPermission.ReadWrite).2.2.2.1 (by decide)
  have h2 := (SharedMemory.Map_page_count_is_ceiling PageTable.ops true scenarioStart procA
    0x1000 (2 ^ 64 - 1) MemoryPermission.ReadWrite).2.2.2.2 (by decide) (by decide)
  ⟨by decide, by decide, rfl, h1.1, h1.2.1, h1.2.2, h2.1, h2.2.1, h2.2.2⟩

end Kernel

namespace Common.FS

/-- C9, the code at a failing input.  For `v = [10, 20, 30, 40, 50]`, `first = 1` and
`last = 3` the code returns the three elements `[20, 30, 40]`, where the documented slice
of the indices `[1, 3)` is `[20, 30]`; for `v = [10, 20, 30]`, `first = 2` and `last = 3`
the iterator range of the code ends past the end of the vector. -/
theorem SliceVector_failing_input :
    SliceVector [10, 20, 30, 40, 50] 1 3 = some [20, 30, 40] ∧
    SliceVector_documented [10, 20, 30, 40, 50] 1 3 = [20, 30] ∧
    SliceVector [10, 20, 30] 2 3 = none ∧
    SliceVector_documented [10, 20, 30] 2 3 = [30] := by
  decide

end Common.FS
